import Mathlib

/-!
Verification of the Quoridor rules core (Board.h/Board.cpp,
tablegame_engine.h/tablegame_engine.cpp).

The C++ code stores coordinates in int8_t fields. We embed positions with
unbounded Int coordinates and apply an explicit wrap, wrap8, exactly where the
source performs a static_cast<int8_t> or an implicit narrowing assignment to an
int8_t variable. All game-state containers are embedded as lists; the std::set
of walls is a list queried by membership, matching std::set::find semantics.
-/

namespace CorridorBots

/-- Narrowing conversion to int8_t: reduce modulo 256 into the range
[-128, 127]. Models every static_cast to int8_t in the source. -/
def wrap8 (z : Int) : Int := (z + 128) % 256 - 128

/-- Struct Pos_t (Board.h lines 15-24): a two-dimensional integer position. -/
structure Pos where
  x : Int
  y : Int
deriving DecidableEq, Repr

/-- Pos_t addition (Board.cpp lines 17-21): component sums narrowed to int8_t. -/
def Pos.add (a b : Pos) : Pos := ⟨wrap8 (a.x + b.x), wrap8 (a.y + b.y)⟩

/-- Pos_t subtraction (Board.cpp lines 23-27). -/
def Pos.sub (a b : Pos) : Pos := ⟨wrap8 (a.x - b.x), wrap8 (a.y - b.y)⟩

/-- Struct PlayerPiece_t (Board.h lines 30-34): a position and a player name. -/
structure PlayerPiece where
  pos : Pos
  name : String
deriving DecidableEq, Repr

/-- Struct WallPiece_t (Board.h lines 41-48): a wall-slot position and an
orientation flag, true meaning vertical. -/
structure WallPiece where
  pos : Pos
  vertical : Bool
deriving DecidableEq, Repr

/-- Struct Board_t (Board.h lines 57-61): the list of player pieces and the
list of wall pieces. -/
structure Board where
  players : List PlayerPiece
  walls : List WallPiece
deriving DecidableEq, Repr

/-- The engine state: TablegameEngine_t members m_board and m_current_player
(tablegame_engine.h lines 109, 126) together with the QuoridorEngine_t member
m_walls_on_board (tablegame_engine.h line 248), a std::set embedded as a
duplicate-free-by-construction list queried via membership. -/
structure GameState where
  board : Board
  currentPlayer : Int
  wallsOnBoard : List WallPiece
deriving DecidableEq, Repr

/-- The error kinds the specification names in its section 7. The C++ code
declares exception classes IllegalMoveException, PlayerNotFoundException and
TooFewPlayersException (tablegame_engine.h lines 28-44); it declares no
wall-specific exception class, so illegalWallPlacement is never produced by
the embedded commands. -/
inductive GameError where
  | illegalMove
  | illegalWallPlacement
  | playerNotFound
  | tooFewPlayers
deriving DecidableEq, Repr

/-- Conversion of a C++ bool to an integer operand (true is 1, false is 0),
as in the expressions x + !vertical and y_min - !vertical of the source. -/
def boolInt (b : Bool) : Int := if b then 1 else 0

/-- IsPosLegal (tablegame_engine.cpp lines 409-413): both coordinates lie in
[0, m_board_side_length - 1] with m_board_side_length = 9. -/
def isPosLegal (p : Pos) : Bool :=
  decide (0 ≤ p.x ∧ p.x < 9 ∧ 0 ≤ p.y ∧ p.y < 9)

/-- IsWallLegal (tablegame_engine.cpp lines 418-423): both coordinates lie in
[0, m_wall_pos_per_side - 1] with m_wall_pos_per_side = 8. -/
def isWallLegal (w : WallPiece) : Bool :=
  decide (0 ≤ w.pos.x ∧ w.pos.x < 8 ∧ 0 ≤ w.pos.y ∧ w.pos.y < 8)

/-- IsPosFree (tablegame_engine.cpp lines 356-367): no player piece on the
board occupies the given position. -/
def isPosFree (s : GameState) (p : Pos) : Bool :=
  decide (∀ pp ∈ s.board.players, pp.pos ≠ p)

/-- findWall (tablegame_engine.cpp lines 482-485): membership of the wall in
m_walls_on_board. -/
def findWall (s : GameState) (w : WallPiece) : Bool :=
  decide (w ∈ s.wallsOnBoard)

/-- The x_min of IsWallBetweenAdjPos (tablegame_engine.cpp line 443). -/
def xminOf (a b : Pos) : Int := if a.x < b.x then a.x else b.x

/-- The y_min of IsWallBetweenAdjPos (tablegame_engine.cpp line 444). -/
def yminOf (a b : Pos) : Int := if a.y < b.y then a.y else b.y

/-- The local flag of IsWallBetweenAdjPos (tablegame_engine.cpp line 445),
computed exactly as the source writes it: vertical = ( y_min != 0 ). -/
def cutVertical (a b : Pos) : Bool := decide (yminOf a b ≠ 0)

/-- IsWallBetweenAdjPos, two-argument overload (tablegame_engine.cpp lines
430-451). The assert at line 432 (Manhattan distance exactly 1) is a no-op in
release builds and is modelled separately by adjAssertion; the function body
is embedded as written: out-of-bounds endpoints count as walled, otherwise the
board is searched for a wall of orientation !vertical at either of the two
candidate slots. -/
def isWallBetweenAdjPos (s : GameState) (a b : Pos) : Bool :=
  if !(isPosLegal a) || !(isPosLegal b) then true
  else
    findWall s ⟨⟨xminOf a b, yminOf a b⟩, !(cutVertical a b)⟩ ||
    findWall s ⟨⟨wrap8 (xminOf a b - boolInt (cutVertical a b)),
                 wrap8 (yminOf a b - boolInt (!(cutVertical a b)))⟩,
               !(cutVertical a b)⟩

/-- The asserted precondition of both IsWallBetweenAdjPos overloads
(tablegame_engine.cpp lines 432 and 461): the two positions are grid-adjacent,
Manhattan distance exactly 1. -/
def adjAssertion (a b : Pos) : Prop := |b.x - a.x| + |b.y - a.y| = 1

instance (a b : Pos) : Decidable (adjAssertion a b) := by
  unfold adjAssertion; infer_instance

/-- The local x_diff of CheckMove (tablegame_engine.cpp line 196): an int8_t
variable assigned the coordinate difference. -/
def xdiffOf (cur new : Pos) : Int := wrap8 (new.x - cur.x)

/-- The local y_diff of CheckMove (tablegame_engine.cpp line 197). -/
def ydiffOf (cur new : Pos) : Int := wrap8 (new.y - cur.y)

/-- The local pos_diff of CheckMove (tablegame_engine.cpp line 198): the sum
of absolute differences, narrowed into an int8_t variable. -/
def posdiffOf (cur new : Pos) : Int :=
  wrap8 (|xdiffOf cur new| + |ydiffOf cur new|)

/-- The pos_jump_over of the straight-jump branch (tablegame_engine.cpp lines
218-219): the midpoint cell, built with truncating integer division by 2 and
int8_t casts. -/
def jumpMid (cur new : Pos) : Pos :=
  ⟨wrap8 (cur.x + Int.tdiv (xdiffOf cur new) 2),
   wrap8 (cur.y + Int.tdiv (ydiffOf cur new) 2)⟩

/-- The pos_straight_jump_to of the diagonal branch (tablegame_engine.cpp
lines 233-234): the elbow cell mirrored through cur_pos. -/
def diagMirror (cur jump : Pos) : Pos :=
  ⟨wrap8 (2 * cur.x - jump.x), wrap8 (2 * cur.y - jump.y)⟩

/-- The condition chain of one iteration of the diagonal-move loop of
CheckMove (tablegame_engine.cpp lines 235-241): the elbow cell is occupied,
the straight jump through it is walled, and neither leg of the detour is
walled. -/
def diagElbowOk (s : GameState) (cur new jump : Pos) : Bool :=
  !(isPosFree s jump) &&
  isWallBetweenAdjPos s jump (diagMirror cur jump) &&
  !(isWallBetweenAdjPos s cur jump) &&
  !(isWallBetweenAdjPos s jump new)

/-- CheckMove (tablegame_engine.cpp lines 182-247), embedded clause by clause
in source order: legality and occupancy of new_pos, the pos_diff filter, the
unconditional wall check between cur_pos and new_pos, the adjacent-move
acceptance, the straight-jump branch (which, as written at line 225, returns
the result of the wall test between the midpoint and new_pos without
negation), and the two-elbow diagonal loop. -/
def checkMove (s : GameState) (cur new : Pos) : Bool :=
  if !(isPosLegal new) then false
  else if !(isPosFree s new) then false
  else if posdiffOf cur new = 0 ∨ posdiffOf cur new > 2 then false
  else if isWallBetweenAdjPos s cur new then false
  else if posdiffOf cur new = 1 then true
  else if |ydiffOf cur new| = 2 ∨ |xdiffOf cur new| = 2 then
    if isPosFree s (jumpMid cur new) then false
    else isWallBetweenAdjPos s (jumpMid cur new) new
  else
    diagElbowOk s cur new ⟨cur.x, new.y⟩ || diagElbowOk s cur new ⟨new.x, cur.y⟩

/-- The arguments of the IsWallBetweenAdjPos calls made while evaluating one
iteration of the diagonal loop of CheckMove (tablegame_engine.cpp lines
235-238), respecting the short-circuit evaluation of the && chain. -/
def diagElbowCalls (s : GameState) (cur new jump : Pos) : List (Pos × Pos) :=
  if isPosFree s jump then []
  else if !(isWallBetweenAdjPos s jump (diagMirror cur jump)) then
    [(jump, diagMirror cur jump)]
  else if isWallBetweenAdjPos s cur jump then
    [(jump, diagMirror cur jump), (cur, jump)]
  else
    [(jump, diagMirror cur jump), (cur, jump), (jump, new)]

/-- The arguments of every call CheckMove makes to the two-argument
IsWallBetweenAdjPos, in evaluation order, following the control flow of
tablegame_engine.cpp lines 182-247: the unconditional call at line 205 happens
whenever the pos_diff filter passes, the straight branch adds the
midpoint-to-target call at line 225, and the diagonal loop adds the calls of
its first iteration and, if that iteration fails, of its second. -/
def checkMoveAdjCalls (s : GameState) (cur new : Pos) : List (Pos × Pos) :=
  if !(isPosLegal new) then []
  else if !(isPosFree s new) then []
  else if posdiffOf cur new = 0 ∨ posdiffOf cur new > 2 then []
  else
    (cur, new) ::
      (if isWallBetweenAdjPos s cur new then []
       else if posdiffOf cur new = 1 then []
       else if |ydiffOf cur new| = 2 ∨ |xdiffOf cur new| = 2 then
         if isPosFree s (jumpMid cur new) then []
         else [(jumpMid cur new, new)]
       else
         diagElbowCalls s cur new ⟨cur.x, new.y⟩ ++
           (if diagElbowOk s cur new ⟨cur.x, new.y⟩ then []
            else diagElbowCalls s cur new ⟨new.x, cur.y⟩))

/-- CheckAddWall (tablegame_engine.cpp lines 252-269): the wall slot is in
bounds and none of the four conflicting walls (identical, crossing, and the
two collinear overlaps) is on the board. -/
def checkAddWall (s : GameState) (w : WallPiece) : Bool :=
  if !(isWallLegal w) then false
  else
    !(findWall s w) &&
    !(findWall s ⟨w.pos, !w.vertical⟩) &&
    !(findWall s ⟨⟨wrap8 (w.pos.x + boolInt (!w.vertical)),
                   wrap8 (w.pos.y + boolInt w.vertical)⟩, w.vertical⟩) &&
    !(findWall s ⟨⟨wrap8 (w.pos.x - boolInt (!w.vertical)),
                   wrap8 (w.pos.y - boolInt w.vertical)⟩, w.vertical⟩)

/-- The player_positions table (tablegame_engine.h lines 242-245) as a partial
lookup: the C array has exactly four entries, so any index outside 0..3 is an
out-of-bounds access, modelled as none. -/
def playerPositionsArray (i : Int) : Option Pos :=
  if i = 0 then some ⟨0, 4⟩
  else if i = 1 then some ⟨8, 4⟩
  else if i = 2 then some ⟨4, 0⟩
  else if i = 3 then some ⟨4, 8⟩
  else none

/-- The player_positions table as a list, for the initialization loop of
QuoridorInit which reads entries 0 .. player_names_size - 1 in order. -/
def playerPositionsList : List Pos := [⟨0, 4⟩, ⟨8, 4⟩, ⟨4, 0⟩, ⟨4, 8⟩]

/-- GetGoalPosForPlayerIndex (tablegame_engine.cpp lines 373-404), embedded as
written: the guard at line 378 rejects only indices below 0 or above 4, so
index 4 passes the guard and reads player_positions[4], an out-of-bounds
access modelled as none; for an in-table index the opposite-side coordinate is
always computed from the .x component of the starting position (line 386), and
the nine cells are a column when the start has y = 4 and a row otherwise. -/
def getGoalPosForPlayerIndex (playerIndex : Int) : Option (List Pos) :=
  if playerIndex < 0 ∨ playerIndex > 4 then some []
  else
    match playerPositionsArray playerIndex with
    | none => none
    | some startPos =>
      if startPos.y = 4 then
        some ((List.range 9).map fun j => ⟨9 - 1 - startPos.x, (j : Int)⟩)
      else
        some ((List.range 9).map fun j => ⟨(j : Int), 9 - 1 - startPos.x⟩)

/-- Result type for CheckWallBlocksPath: either a normal boolean return or the
undefined behaviour of dereferencing a null unique_ptr. -/
inductive CWBPResult where
  | value : Bool → CWBPResult
  | nullDeref : CWBPResult
deriving DecidableEq, Repr

/-- CheckWallBlocksPath (tablegame_engine.cpp lines 276-351). The function
iterates over the players (line 284); if the board has no players the loop is
skipped and false is returned (line 350). For each player the body declares
the frontier sets reachable_pos and last_iter_pos as default-constructed, i.e.
null, unique_ptrs (line 293) and then immediately executes
reachable_pos->insert( player_pos ) (line 296), dereferencing the null
pointer. The whole frontier-expansion search below that statement is therefore
unreachable: with at least one player the first iteration never completes
normally, which we model as nullDeref. -/
def checkWallBlocksPath (s : GameState) (_wall : WallPiece) : CWBPResult :=
  match s.board.players with
  | [] => CWBPResult.value false
  | _ :: _ => CWBPResult.nullDeref

/-- findPlayer followed by GetPlayerPos (tablegame_engine.cpp lines 74-102):
the position of the first player in the list with the given name, or none. -/
def lookupPos : List PlayerPiece → String → Option Pos
  | [], _ => none
  | pp :: rest, name =>
    if pp.name = name then some pp.pos else lookupPos rest name

/-- The write player_pos = new_pos of MovePlayer (tablegame_engine.cpp line
133): update the position of the first player with the given name. -/
def setPlayerPos : List PlayerPiece → String → Pos → List PlayerPiece
  | [], _, _ => []
  | pp :: rest, name, newPos =>
    if pp.name = name then { pp with pos := newPos } :: rest
    else pp :: setPlayerPos rest name newPos

/-- MovePlayer (tablegame_engine.cpp lines 122-134): resolve the player by
name (throwing PlayerNotFoundException if absent), validate with CheckMove
(throwing IllegalMoveException on failure), and only then write the new
position. The thrown exception kind is the first component; the state after
the call is the second. -/
def movePlayer (s : GameState) (name : String) (newPos : Pos) :
    Option GameError × GameState :=
  match lookupPos s.board.players name with
  | none => (some GameError.playerNotFound, s)
  | some curPos =>
    if checkMove s curPos newPos then
      (none, { s with board :=
        { s.board with players := setPlayerPos s.board.players name newPos } })
    else (some GameError.illegalMove, s)

/-- std::set emplace (tablegame_engine.cpp line 151): insert if not present. -/
def insertWallSet (ws : List WallPiece) (w : WallPiece) : List WallPiece :=
  if w ∈ ws then ws else ws ++ [w]

/-- AddWall (tablegame_engine.cpp lines 140-152): validate with CheckAddWall,
throwing an IllegalMoveException on failure (line 145; the source has no
wall-specific exception class), otherwise append the wall to the board list
and insert it into m_walls_on_board. -/
def addWall (s : GameState) (w : WallPiece) : Option GameError × GameState :=
  if checkAddWall s w then
    (none, { s with
      board := { s.board with walls := s.board.walls ++ [w] },
      wallsOnBoard := insertWallSet s.wallsOnBoard w })
  else (some GameError.illegalMove, s)

/-- The player_names_size clamp of QuoridorInit (tablegame_engine.cpp line
169): four pieces when at least four names are given, otherwise two. -/
def initCount (k : Nat) : Nat := if 4 ≤ k then 4 else 2

/-- The initialization loop of QuoridorInit (tablegame_engine.cpp lines
171-174): pair each starting position with the name of the same index. -/
def mkInitPlayers : List Pos → List String → List PlayerPiece
  | p :: ps, n :: ns => ⟨p, n⟩ :: mkInitPlayers ps ns
  | _, _ => []

/-- QuoridorInit (tablegame_engine.cpp lines 159-175): throw
TooFewPlayersException when fewer than two names are given, otherwise append
one piece per starting position for the first initCount names. -/
def quoridorInit (s : GameState) (names : List String) :
    Option GameError × GameState :=
  if names.length < 2 then (some GameError.tooFewPlayers, s)
  else
    let created :=
      mkInitPlayers (playerPositionsList.take (initCount names.length)) names
    (none, { s with board :=
      { s.board with players := s.board.players ++ created } })

/-- NextTurn (tablegame_engine.cpp lines 61-67): increment the current-player
index and wrap to 0 when it reaches the number of players. -/
def nextTurn (s : GameState) : GameState :=
  { s with currentPlayer :=
      if s.currentPlayer + 1 = (s.board.players.length : Int) then 0
      else s.currentPlayer + 1 }

/-- A board with a single player piece standing on the midpoint cell (4, 5)
of the straight jump from (4, 4) to (4, 6), and no walls anywhere. -/
def sJump : GameState :=
  ⟨⟨[⟨⟨4, 5⟩, "B"⟩], []⟩, 0, []⟩

/-- The standard two-player starting state: pieces at the starting positions
of player indices 0 and 1, no walls. -/
def stdStart2 : GameState :=
  ⟨⟨[⟨⟨0, 4⟩, "A"⟩, ⟨⟨8, 4⟩, "B"⟩], []⟩, 0, []⟩

/-- An engine state with an empty board. -/
def stdEmpty : GameState := ⟨⟨[], []⟩, 0, []⟩

/-- A three-player state used to exercise turn cycling. -/
def sTurn3 : GameState :=
  ⟨⟨[⟨⟨0, 4⟩, "A"⟩, ⟨⟨8, 4⟩, "B"⟩, ⟨⟨4, 0⟩, "C"⟩], []⟩, 1, []⟩

/-- The nine cells of the horizontal row at height y, in column order; used to
state which goal set the code computes. -/
def goalRowAt (y : Int) : List Pos := (List.range 9).map fun j => ⟨(j : Int), y⟩

end CorridorBots

namespace CorridorBots

/-- Projection lemma: updating the current player leaves the board intact. -/
theorem nextTurn_board (s : GameState) : (nextTurn s).board = s.board := rfl

/-- Iterating NextTurn never changes the board. -/
theorem nextTurn_iterate_board (s : GameState) (m : Nat) :
    (nextTurn^[m] s).board = s.board := by
  induction m with
  | zero => rfl
  | succ k ih => rw [Function.iterate_succ_apply', nextTurn_board, ih]

/-- The current-player index produced by one NextTurn step. -/
theorem nextTurn_currentPlayer (s : GameState) :
    (nextTurn s).currentPlayer =
      if s.currentPlayer + 1 = (s.board.players.length : Int) then 0
      else s.currentPlayer + 1 := rfl

/-- As long as the index stays below the roster size, m applications of
NextTurn add m to the current-player index. -/
theorem nextTurn_iterate_no_wrap (s : GameState) (m : Nat)
    (hm : s.currentPlayer + m < (s.board.players.length : Int)) :
    (nextTurn^[m] s).currentPlayer = s.currentPlayer + m := by
  induction m with
  | zero => simp
  | succ k ih =>
    have hk : s.currentPlayer + (k : Int) < (s.board.players.length : Int) := by
      push_cast at hm ⊢; omega
    have hne : ¬ (s.currentPlayer + (k : Int) + 1 = (s.board.players.length : Int)) := by
      push_cast at hm; omega
    rw [Function.iterate_succ_apply', nextTurn_currentPlayer, nextTurn_iterate_board,
      ih hk, if_neg hne]
    push_cast
    ring

/-- Claim C3: for every board state, a move to an orthogonally adjacent
target cell that is legal, unoccupied, and not separated from the current
cell by the wall predicate of the engine is accepted by CheckMove, whatever
other walls and pieces the board contains. -/
theorem c3_adjacent_unwalled_move_always_legal (s : GameState) (cur new : Pos)
    (hadj : |new.x - cur.x| + |new.y - cur.y| = 1)
    (hleg : isPosLegal new = true)
    (hfree : isPosFree s new = true)
    (hwall : isWallBetweenAdjPos s cur new = false) :
    checkMove s cur new = true := by
  have hax : |new.x - cur.x| ≤ 1 := by
    have h := abs_nonneg (new.y - cur.y); linarith
  have hay : |new.y - cur.y| ≤ 1 := by
    have h := abs_nonneg (new.x - cur.x); linarith
  obtain ⟨hx1, hx2⟩ := abs_le.mp hax
  obtain ⟨hy1, hy2⟩ := abs_le.mp hay
  have wx : xdiffOf cur new = new.x - cur.x := by
    unfold xdiffOf wrap8; omega
  have wy : ydiffOf cur new = new.y - cur.y := by
    unfold ydiffOf wrap8; omega
  have wp : posdiffOf cur new = 1 := by
    unfold posdiffOf
    rw [wx, wy, hadj]
    decide
  simp [checkMove, hleg, hfree, wp, hwall]

/-- Witness for claim C3 at a concrete input: on the two-player starting
board the step from (4, 4) to (4, 5) is legal. -/
theorem c3_adjacent_unwalled_move_always_legal_witness :
    checkMove stdStart2 ⟨4, 4⟩ ⟨4, 5⟩ = true :=
  c3_adjacent_unwalled_move_always_legal stdStart2 ⟨4, 4⟩ ⟨4, 5⟩ (by decide) (by decide)
    (by decide) (by decide)

/-- Claim C1: evaluation of the code at the failing input. On a board whose
only piece stands on the midpoint (4, 5), the straight jump from (4, 4) to
(4, 6) satisfies every hypothesis of the claim and there is no wall between
the midpoint and the target, yet CheckMove returns false, because line 225 of
tablegame_engine.cpp returns the wall test without the negation the
specification states. -/
theorem c1_straight_jump_wall_check_inverted :
    isPosLegal ⟨4, 6⟩ = true ∧
    isPosFree sJump ⟨4, 6⟩ = true ∧
    posdiffOf ⟨4, 4⟩ ⟨4, 6⟩ = 2 ∧
    xdiffOf ⟨4, 4⟩ ⟨4, 6⟩ = 0 ∧
    jumpMid ⟨4, 4⟩ ⟨4, 6⟩ = ⟨4, 5⟩ ∧
    isPosFree sJump ⟨4, 5⟩ = false ∧
    isWallBetweenAdjPos sJump ⟨4, 4⟩ ⟨4, 6⟩ = false ∧
    isWallBetweenAdjPos sJump ⟨4, 5⟩ ⟨4, 6⟩ = false ∧
    checkMove sJump ⟨4, 4⟩ ⟨4, 6⟩ = false := by decide

/-- Claim C2: evaluation of the code at the failing input. On the standard
two-player starting board with no walls, and with a hypothetical wall outside
the legal slot range, CheckWallBlocksPath dereferences its null frontier
pointer instead of returning false. -/
theorem c2_pathfinder_null_dereference :
    checkWallBlocksPath stdStart2 ⟨⟨-1, -1⟩, false⟩ = CWBPResult.nullDeref ∧
    CWBPResult.nullDeref ≠ CWBPResult.value false := by decide

/-- Claim C4: evaluation of the code at the failing input. Checking the
straight jump from (4, 4) to (4, 6) over the occupied midpoint makes
CheckMove call IsWallBetweenAdjPos on the pair ((4, 4), (4, 6)) itself, whose
Manhattan distance is 2, violating the asserted adjacency precondition of the
helper. -/
theorem c4_adjacency_assert_violated :
    ((⟨4, 4⟩, ⟨4, 6⟩) : Pos × Pos) ∈ checkMoveAdjCalls sJump ⟨4, 4⟩ ⟨4, 6⟩ ∧
    ¬ adjAssertion ⟨4, 4⟩ ⟨4, 6⟩ := by decide

/-- Claim C5: evaluation of the code at the failing inputs. For player index
2, who starts at (4, 0), the code returns the middle row y = 4 instead of the
opposite edge row y = 8, because line 386 of tablegame_engine.cpp computes the
opposite-side coordinate from the x component of the starting position; and
index 4 passes the guard of line 378 and reads past the end of the four-entry
player_positions array instead of returning the empty set. -/
theorem c5_goal_set_wrong_row_and_guard :
    getGoalPosForPlayerIndex 2 = some (goalRowAt 4) ∧
    (⟨4, 8⟩ : Pos) ∉ goalRowAt 4 ∧
    getGoalPosForPlayerIndex 4 = none ∧
    (none : Option (List Pos)) ≠ some [] ∧
    getGoalPosForPlayerIndex 5 = some [] := by decide

/-- Counterexample for claim C6: rejecting the out-of-bounds wall at slot
(8, 8) produces the error kind IllegalMove, not a wall-specific kind, so the
rejection is not distinguishable from a pawn-move failure by its kind. -/
theorem c6_counterexample_wall_rejection_kind :
    (addWall stdStart2 ⟨⟨8, 8⟩, true⟩).1 = some GameError.illegalMove ∧
    GameError.illegalMove ≠ GameError.illegalWallPlacement := by decide

/-- Claim C6 as amended: every wall piece that fails the wall validator is
rejected by AddWall with the error kind IllegalMove, the same kind used for
pawn-move failures (tablegame_engine.cpp line 145 throws
IllegalMoveException; no wall-specific exception class exists). -/
theorem c6_wall_rejection_uses_illegalMove (s : GameState) (w : WallPiece)
    (h : checkAddWall s w = false) :
    addWall s w = (some GameError.illegalMove, s) := by
  unfold addWall
  rw [h]
  simp

/-- Witness for amended claim C6 at a concrete input. -/
theorem c6_wall_rejection_uses_illegalMove_witness :
    addWall stdStart2 ⟨⟨8, 8⟩, true⟩ = (some GameError.illegalMove, stdStart2) :=
  c6_wall_rejection_uses_illegalMove stdStart2 ⟨⟨8, 8⟩, true⟩ (by decide)

/-- Claim C7: whenever MovePlayer, AddWall or QuoridorInit rejects with an
error, the resulting engine state equals the state before the call: every
rejection path throws before any field is written. -/
theorem c7_rejection_leaves_state_unchanged (s : GameState) (name : String)
    (p : Pos) (w : WallPiece) (names : List String) :
    ((movePlayer s name p).1 ≠ none → (movePlayer s name p).2 = s) ∧
    ((addWall s w).1 ≠ none → (addWall s w).2 = s) ∧
    ((quoridorInit s names).1 ≠ none → (quoridorInit s names).2 = s) := by
  refine ⟨?_, ?_, ?_⟩
  · unfold movePlayer
    cases hl : lookupPos s.board.players name with
    | none => simp
    | some cp =>
      by_cases hc : checkMove s cp p = true
      · simp [hc]
      · simp [hc]
  · unfold addWall
    split
    · intro h; exact absurd rfl h
    · intro _; rfl
  · unfold quoridorInit
    split
    · intro _; rfl
    · intro h; exact absurd rfl h

/-- Witness for claim C7 at concrete rejecting inputs: an unknown player
name, an out-of-bounds wall, and an empty roster all leave the state
unchanged. -/
theorem c7_rejection_leaves_state_unchanged_witness :
    (movePlayer stdStart2 "Z" ⟨0, 0⟩).2 = stdStart2 ∧
    (addWall stdStart2 ⟨⟨8, 8⟩, true⟩).2 = stdStart2 ∧
    (quoridorInit stdStart2 []).2 = stdStart2 := by
  refine ⟨?_, ?_, ?_⟩
  · exact (c7_rejection_leaves_state_unchanged stdStart2 "Z" ⟨0, 0⟩
      ⟨⟨8, 8⟩, true⟩ []).1 (by decide)
  · exact (c7_rejection_leaves_state_unchanged stdStart2 "Z" ⟨0, 0⟩
      ⟨⟨8, 8⟩, true⟩ []).2.1 (by decide)
  · exact (c7_rejection_leaves_state_unchanged stdStart2 "Z" ⟨0, 0⟩
      ⟨⟨8, 8⟩, true⟩ []).2.2 (by decide)

/-- Claim C8: with a roster of size n and a current-player index in [0, n),
applying NextTurn n times returns the current-player index to its original
value. -/
theorem c8_turn_cycle (s : GameState)
    (h0 : 0 ≤ s.currentPlayer)
    (h1 : s.currentPlayer < (s.board.players.length : Int)) :
    (nextTurn^[s.board.players.length] s).currentPlayer = s.currentPlayer := by
  obtain ⟨k, hk⟩ : ∃ k : Nat, (k : Int) = s.currentPlayer :=
    ⟨s.currentPlayer.toNat, Int.toNat_of_nonneg h0⟩
  have hkn : k < s.board.players.length := by omega
  have hsplit : s.board.players.length = k + 1 + (s.board.players.length - 1 - k) := by
    omega
  rw [hsplit, Function.iterate_add_apply, Function.iterate_add_apply,
    Function.iterate_one]
  have e1 : (nextTurn^[s.board.players.length - 1 - k] s).currentPlayer =
      s.currentPlayer + ((s.board.players.length - 1 - k : Nat) : Int) :=
    nextTurn_iterate_no_wrap s _ (by omega)
  have b1 : (nextTurn^[s.board.players.length - 1 - k] s).board = s.board :=
    nextTurn_iterate_board s _
  have e2 : (nextTurn (nextTurn^[s.board.players.length - 1 - k] s)).currentPlayer = 0 := by
    rw [nextTurn_currentPlayer, e1, b1, if_pos (by omega)]
  have b2 : (nextTurn (nextTurn^[s.board.players.length - 1 - k] s)).board = s.board := by
    rw [nextTurn_board, b1]
  have e3 : (nextTurn^[k] (nextTurn (nextTurn^[s.board.players.length - 1 - k] s))).currentPlayer =
      (nextTurn (nextTurn^[s.board.players.length - 1 - k] s)).currentPlayer + (k : Int) :=
    nextTurn_iterate_no_wrap _ k (by rw [e2, b2]; omega)
  rw [e3, e2]
  omega

/-- Witness for claim C8 at a concrete input: three NextTurn steps on a
three-player roster starting at index 1 return to index 1. -/
theorem c8_turn_cycle_witness : (nextTurn^[3] sTurn3).currentPlayer = 1 :=
  c8_turn_cycle sTurn3 (by decide) (by decide)

/-- The initialization loop pairs positions with the names of the same index:
it equals a zip against the truncated name list. -/
theorem mkInitPlayers_eq_zipWith (ps : List Pos) (ns : List String) :
    mkInitPlayers ps ns =
      List.zipWith (fun p n => PlayerPiece.mk p n) ps (ns.take ps.length) := by
  induction ps generalizing ns with
  | nil => rfl
  | cons p pstail ih =>
    cases ns with
    | nil => rfl
    | cons n nstail => simp [mkInitPlayers, ih]

/-- The number of pieces the initialization loop creates. -/
theorem mkInitPlayers_length (ps : List Pos) (ns : List String) :
    (mkInitPlayers ps ns).length = min ps.length ns.length := by
  induction ps generalizing ns with
  | nil => simp [mkInitPlayers]
  | cons p pstail ih =>
    cases ns with
    | nil => simp [mkInitPlayers]
    | cons n nstail =>
      simp only [mkInitPlayers, List.length_cons, ih]
      omega

/-- Claim C9: QuoridorInit fails with TooFewPlayers and adds no players when
fewer than two names are given; otherwise it succeeds and appends exactly
initCount pieces (two for two or three names, four for four or more), pairing
the starting position of each index with the name of the same index, with
surplus names silently ignored. -/
theorem c9_init_edge_cases (s : GameState) (names : List String) :
    (names.length < 2 → quoridorInit s names = (some GameError.tooFewPlayers, s)) ∧
    (2 ≤ names.length →
      (quoridorInit s names).1 = none ∧
      (quoridorInit s names).2.board.players =
        s.board.players ++
          List.zipWith (fun p n => PlayerPiece.mk p n)
            (playerPositionsList.take (initCount names.length))
            (names.take (initCount names.length)) ∧
      (mkInitPlayers (playerPositionsList.take (initCount names.length)) names).length
        = initCount names.length) := by
  have hcount : initCount names.length ≤ 4 := by
    unfold initCount; split <;> omega
  have htakelen : (playerPositionsList.take (initCount names.length)).length
      = initCount names.length := by
    rw [List.length_take]
    show min (initCount names.length) 4 = initCount names.length
    omega
  constructor
  · intro h
    unfold quoridorInit
    rw [if_pos h]
  · intro h
    have hnot : ¬ names.length < 2 := by omega
    refine ⟨?_, ?_, ?_⟩
    · unfold quoridorInit; rw [if_neg hnot]
    · unfold quoridorInit; rw [if_neg hnot]
      show s.board.players ++
          mkInitPlayers (playerPositionsList.take (initCount names.length)) names = _
      rw [mkInitPlayers_eq_zipWith, htakelen]
    · rw [mkInitPlayers_length, htakelen]
      unfold initCount
      unfold initCount at htakelen hcount
      split <;> omega

/-- Witness for claim C9 at concrete inputs: one name is rejected with
TooFewPlayers, three names succeed. -/
theorem c9_init_edge_cases_witness :
    quoridorInit stdEmpty ["A"] = (some GameError.tooFewPlayers, stdEmpty) ∧
    (quoridorInit stdEmpty ["A", "B", "C"]).1 = none := by
  constructor
  · exact (c9_init_edge_cases stdEmpty ["A"]).1 (by decide)
  · exact ((c9_init_edge_cases stdEmpty ["A", "B", "C"]).2 (by decide)).1

/-- Claim C10: MovePlayer, AddWall and QuoridorInit never change the
current-player index, on success or on rejection; only NextTurn updates it. -/
theorem c10_commands_preserve_turn (s : GameState) (name : String) (p : Pos)
    (w : WallPiece) (names : List String) :
    (movePlayer s name p).2.currentPlayer = s.currentPlayer ∧
    (addWall s w).2.currentPlayer = s.currentPlayer ∧
    (quoridorInit s names).2.currentPlayer = s.currentPlayer := by
  refine ⟨?_, ?_, ?_⟩
  · unfold movePlayer
    cases hl : lookupPos s.board.players name with
    | none => simp
    | some cp =>
      by_cases hc : checkMove s cp p = true
      · simp [hc]
      · simp [hc]
  · unfold addWall; split <;> rfl
  · unfold quoridorInit; split <;> rfl

end CorridorBots
